import Mathlib

/-!
Verification of the session-backed identity and guild cache of the
Life-dashboard repository (`dashboard/core/app.py`).

The stateful, network-calling Python methods are shallowly embedded as pure
Lean functions: the aiohttp session record becomes a `Session` structure, the
remote responses (OAuth refresh, identity endpoint, IPC) become fields of an
`Env` record, and each method returns its value together with the updated
session and a counter of outbound calls (`Eff`).

The helper classes `objects.Token`, `objects.User`, `objects.Guild` and the
`exceptions.HTTPException` class live in files that are not part of the
provided sources; they are modelled from the specification and marked as such.
-/

/-- Modelled from the spec: the `token` session field,
`{access_token, refresh_token, expires_in, obtained_at}` (spec section 3);
`objects.Token` is a derived view over exactly these attributes. -/
structure TokenData where
  access_token : String
  refresh_token : String
  expires_in : Nat
  obtained_at : Nat
deriving Repr, DecidableEq

/-- Modelled from the spec: `Token.is_expired() := now >= obtained_at + lifetime`
(spec section 3; `objects.Token.is_expired` is not in the provided sources). -/
def TokenData.is_expired (t : TokenData) (now : Nat) : Bool :=
  decide (now ≥ t.obtained_at + t.expires_in)

/-- Modelled from the spec: the cached `user` session field — id, display name,
avatar, plus `fetched_at` (spec section 3). -/
structure UserData where
  id : Nat
  username : String
  avatar : String
  fetched_at : Nat
deriving Repr, DecidableEq

/-- Modelled from the spec: `User.is_expired()` is true once a fixed TTL has
elapsed since `fetched_at`; the TTL is a configurable duration (spec section 3,
`objects.User.is_expired` is not in the provided sources). -/
def UserData.is_expired (u : UserData) (now ttl : Nat) : Bool :=
  decide (now ≥ u.fetched_at + ttl)

/-- Modelled from the spec: one entry of the cached `guilds` session field —
id, name, icon, permissions, plus `fetched_at` (spec section 3). -/
structure GuildData where
  id : Nat
  name : String
  icon : String
  permissions : Nat
  fetched_at : Nat
deriving Repr, DecidableEq

/-- Modelled from the spec: `Guild.is_expired()` uses the same expiry rule as
`User`, evaluated per entry (spec section 3; `objects.Guild.is_expired` is not
in the provided sources). -/
def GuildData.is_expired (g : GuildData) (now ttl : Nat) : Bool :=
  decide (now ≥ g.fetched_at + ttl)

/-- Modelled from the spec: `objects.Guild.to_dict` serialises the guild view,
whose attributes are exactly the fields of `GuildData`; the serialised dict is
represented by the record itself. -/
def GuildData.to_dict (g : GuildData) : GuildData := g

/-- The session record: the three logical fields the core reads and writes
(`aiohttp_session.Session` keyed access in `app.py`). The `guilds` field
stores the raw fetched list, exactly as `session["guilds"] = guilds_data`. -/
structure Session where
  token : Option TokenData
  user : Option UserData
  guilds : Option (List GuildData)
deriving Repr, DecidableEq

/-- Modelled from the spec: `exceptions.HTTPException(response, message=...)`
carries the HTTP response (represented by its status) and a message. -/
structure HTTPException where
  status : Nat
  message : String
deriving Repr, DecidableEq

/-- The JSON body of the OAuth refresh response: either an `error` field or
token data (`data.get("error")` in `get_token`). -/
structure RefreshBody where
  error : Option String
  token : TokenData
deriving Repr, DecidableEq

/-- The response of the OAuth token endpoint to the refresh POST. -/
structure RefreshResponse where
  status : Nat
  body : RefreshBody
deriving Repr, DecidableEq

/-- The environment of one request: the responses the remote services would
give to each outbound call, the current time, and the (configurable) TTLs. -/
structure Env where
  refresh : RefreshResponse
  userResp : UserData
  guildsResp : List GuildData
  mutualIds : Option (List Nat)
  now : Nat
  userTTL : Nat
  guildTTL : Nat
deriving Repr, DecidableEq

/-- Outbound-call counters: OAuth refresh POSTs, identity-endpoint GETs
(user or guild fetches), and IPC requests to the bot process. -/
structure Eff where
  refreshCalls : Nat
  httpCalls : Nat
  ipcCalls : Nat
deriving Repr, DecidableEq

def Eff.zero : Eff := ⟨0, 0, 0⟩

/-- The outcome of one core method: the returned value (or a raised
`HTTPException`), the session as left behind, and the outbound calls made. -/
structure Out (α : Type) where
  result : Except HTTPException α
  session : Session
  eff : Eff
deriving Repr

/-- Embedding of `Dashboard.get_token` (`app.py` lines 99-140): absent token
returns `None`; an unexpired token is returned unchanged; an expired token
triggers exactly one refresh POST, whose non-200 status or `error` body field
raises `HTTPException`, and whose success overwrites `session["token"]`. -/
def get_token (env : Env) (s : Session) : Out (Option TokenData) :=
  match s.token with
  | none => ⟨.ok none, s, Eff.zero⟩
  | some data =>
    if data.is_expired env.now then
      if env.refresh.status ≠ 200 then
        ⟨.error ⟨env.refresh.status,
          "something went wrong while requesting refreshed discord access token."⟩,
         s, ⟨1, 0, 0⟩⟩
      else
        match env.refresh.body.error with
        | some err => ⟨.error ⟨env.refresh.status, err⟩, s, ⟨1, 0, 0⟩⟩
        | none =>
          ⟨.ok (some env.refresh.body.token),
           { s with token := some env.refresh.body.token }, ⟨1, 0, 0⟩⟩
    else
      ⟨.ok (some data), s, Eff.zero⟩

/-- Embedding of `Dashboard.fetch_user` (`app.py` lines 170-184): re-derives the
token (refreshing if needed); with no token returns `None`; otherwise one GET of
the profile, stamped `fetched_at = now`, overwriting `session["user"]`. -/
def fetch_user (env : Env) (s : Session) : Out (Option UserData) :=
  let t := get_token env s
  match t.result with
  | .error e => ⟨.error e, t.session, t.eff⟩
  | .ok none => ⟨.ok none, t.session, t.eff⟩
  | .ok (some _) =>
    let data := { env.userResp with fetched_at := env.now }
    ⟨.ok (some data), { t.session with user := some data },
     { t.eff with httpCalls := t.eff.httpCalls + 1 }⟩

/-- Embedding of `Dashboard.get_user` (`app.py` lines 186-200): a missing
`user` field delegates to `fetch_user`; a present one is returned as a `User`
unless it is expired, in which case `fetch_user` replaces it. -/
def get_user (env : Env) (s : Session) : Out (Option UserData) :=
  match s.user with
  | none => fetch_user env s
  | some data =>
    if data.is_expired env.now env.userTTL then fetch_user env s
    else ⟨.ok (some data), s, Eff.zero⟩

/-- Python dict insertion: an existing key keeps its position and gets the new
value; a new key is appended. -/
def dictInsert (d : List (Nat × GuildData)) (k : Nat) (v : GuildData) :
    List (Nat × GuildData) :=
  if d.any (fun p => p.1 = k) then
    d.map (fun p => if p.1 = k then (k, v) else p)
  else
    d ++ [(k, v)]

/-- The dict comprehension `{int(data["id"]): objects.Guild(data) for data in
guilds_data}` (`app.py` lines 220 and 231), with Python dict insertion-order
semantics. -/
def guildsDict (l : List GuildData) : List (Nat × GuildData) :=
  l.foldl (fun d g => dictInsert d g.id g) []

/-- Embedding of `Dashboard.fetch_user_guilds` (`app.py` lines 204-220):
re-derives the token; with no token returns `None`; otherwise one bulk GET of
the guild list, stamping every entry with `fetched_at = now`, overwriting
`session["guilds"]` with the stamped list, and returning the id-keyed dict. -/
def fetch_user_guilds (env : Env) (s : Session) :
    Out (Option (List (Nat × GuildData))) :=
  let t := get_token env s
  match t.result with
  | .error e => ⟨.error e, t.session, t.eff⟩
  | .ok none => ⟨.ok none, t.session, t.eff⟩
  | .ok (some _) =>
    let stamped := env.guildsResp.map (fun g => { g with fetched_at := env.now })
    ⟨.ok (some (guildsDict stamped)), { t.session with guilds := some stamped },
     { t.eff with httpCalls := t.eff.httpCalls + 1 }⟩

/-- Embedding of `Dashboard.get_user_guilds` (`app.py` lines 222-236): a
missing or empty (Python-falsy) `guilds` field delegates to
`fetch_user_guilds`; otherwise the stored list is keyed by id and returned,
unless any entry is expired, in which case `fetch_user_guilds` replaces it. -/
def get_user_guilds (env : Env) (s : Session) :
    Out (Option (List (Nat × GuildData))) :=
  match s.guilds with
  | none => fetch_user_guilds env s
  | some gd =>
    if gd = [] then fetch_user_guilds env s
    else
      let guilds := guildsDict gd
      if (guilds.map Prod.snd).any (fun g => g.is_expired env.now env.guildTTL) then
        fetch_user_guilds env s
      else ⟨.ok (some guilds), s, Eff.zero⟩

/-- The resolver output (`RelatedGuilds` in `app.py` lines 249-253): three
fields, each initially `None` (absent). -/
structure RelatedGuilds where
  mutual_guilds : Option (List GuildData)
  non_mutual_guilds : Option (List GuildData)
  guild : Option GuildData
deriving Repr, DecidableEq

/-- The conditional guild lookup of `app.py` lines 263-264: when a truthy
(non-`None`, non-zero) `guild_id` was requested, the first guild with that
id within the mutual list, serialised; stays absent otherwise. -/
def lookupMutual (mutualList : List GuildData) (guild_id : Option Nat) :
    Option GuildData :=
  match guild_id with
  | none => none
  | some gid =>
    if gid ≠ 0 then (mutualList.find? (fun gl => gl.id = gid)).map GuildData.to_dict
    else none

/-- Embedding of `Dashboard.get_related_guilds` (`app.py` lines 240-266): an
absent or empty (Python-falsy) guild mapping short-circuits to the all-absent
triple; otherwise one IPC request for `mutual_guild_ids` (a `None` answer
degrades to the empty list), a partition of the mapping values by membership
in that id set, and — when a truthy `guild_id` was requested — a first-match
lookup within the mutual list. -/
def get_related_guilds (env : Env) (s : Session) (user_id : Nat)
    (guild_id : Option Nat) : Out RelatedGuilds :=
  let g := get_user_guilds env s
  match g.result with
  | .error e => ⟨.error e, g.session, g.eff⟩
  | .ok none => ⟨.ok ⟨none, none, none⟩, g.session, g.eff⟩
  | .ok (some guilds) =>
    if guilds = [] then ⟨.ok ⟨none, none, none⟩, g.session, g.eff⟩
    else
      let mutual_guild_ids := env.mutualIds.getD []
      let vals := guilds.map Prod.snd
      let mutualList := vals.filter (fun gl => gl.id ∈ mutual_guild_ids)
      let nonMutualList := vals.filter (fun gl => gl.id ∉ mutual_guild_ids)
      ⟨.ok ⟨some (mutualList.map GuildData.to_dict),
            some (nonMutualList.map GuildData.to_dict),
            lookupMutual mutualList guild_id⟩,
       g.session, { g.eff with ipcCalls := g.eff.ipcCalls + 1 }⟩

/-! Concrete fixtures used by witnesses and counterexamples. -/

def tokA : TokenData := ⟨"A", "R", 3600, 0⟩

def tokB : TokenData := ⟨"B", "R2", 3600, 4000⟩

def userA : UserData := ⟨1, "u", "av", 100⟩

def guildA : GuildData := ⟨5, "alpha", "ia", 8, 100⟩

def guildB : GuildData := ⟨7, "beta", "ib", 0, 100⟩

/-- An environment observed at time 100: every fixture stamped at 100 is fresh
under the 300-second TTLs, and `tokA` (lifetime 3600 from 0) is unexpired. -/
def envOK : Env := ⟨⟨200, ⟨none, tokB⟩⟩, userA, [guildA, guildB], some [5], 100, 300, 300⟩

/-- The same environment observed at time 4000: `tokA` and the fixtures stamped
at 100 are all expired. -/
def envLate : Env := ⟨⟨200, ⟨none, tokB⟩⟩, userA, [guildA, guildB], some [5], 4000, 300, 300⟩

/-- An environment whose refresh endpoint answers with HTTP status 400. -/
def envFail : Env := ⟨⟨400, ⟨none, tokB⟩⟩, userA, [guildA, guildB], some [5], 4000, 300, 300⟩

def sEmpty : Session := ⟨none, none, none⟩

def sTok : Session := ⟨some tokA, none, none⟩

def sCached : Session := ⟨none, some userA, some [guildA, guildB]⟩

/-! ## C1 — expired token: exactly one refresh, single overwrite -/

/-- C1: for a session whose stored token is expired, `get_token` makes exactly
one refresh call (never zero, never more), and on a 200 response without an
`error` field it overwrites the session's `token` field with the response data
in a single write and returns the token derived from that data. -/
theorem get_token_expired_refreshes_once (env : Env) (s : Session)
    (data : TokenData) (htok : s.token = some data)
    (hexp : data.is_expired env.now = true) :
    (get_token env s).eff.refreshCalls = 1 ∧
    (env.refresh.status = 200 → env.refresh.body.error = none →
      (get_token env s).result = .ok (some env.refresh.body.token) ∧
      (get_token env s).session = { s with token := some env.refresh.body.token }) := by
  by_cases h200 : env.refresh.status = 200
  · cases herr : env.refresh.body.error with
    | none => simp [get_token, htok, hexp, h200, herr]
    | some e => simp [get_token, htok, hexp, h200, herr]
  · simp [get_token, htok, hexp, h200]

/-- Witness for C1: at time 4000 the stored `tokA` (lifetime 3600 from 0) is
expired; the refresh succeeds and `tokB` replaces it. -/
theorem get_token_expired_refreshes_once_witness :
    (get_token envLate sTok).eff.refreshCalls = 1 ∧
    (envLate.refresh.status = 200 → envLate.refresh.body.error = none →
      (get_token envLate sTok).result = .ok (some envLate.refresh.body.token) ∧
      (get_token envLate sTok).session = { sTok with token := some envLate.refresh.body.token }) :=
  get_token_expired_refreshes_once envLate sTok tokA rfl (by decide)

/-! ## C4 — cache hit and no-token paths of `get_token` -/

/-- C4: with no stored token, `get_token` returns absent with no network call
and an unchanged session; with a stored unexpired token it returns that token
unchanged, with no network call and an unchanged session. -/
theorem get_token_cache_hit (env : Env) (s : Session) :
    (s.token = none → get_token env s = ⟨.ok none, s, Eff.zero⟩) ∧
    (∀ data, s.token = some data → data.is_expired env.now = false →
      get_token env s = ⟨.ok (some data), s, Eff.zero⟩) := by
  constructor
  · intro h
    simp [get_token, h]
  · intro data h hfresh
    simp [get_token, h, hfresh]

/-- Witness for C4: a session without a token, and one holding the unexpired
`tokA` at time 100. -/
theorem get_token_cache_hit_witness :
    get_token envOK sEmpty = ⟨.ok none, sEmpty, Eff.zero⟩ ∧
    get_token envOK sTok = ⟨.ok (some tokA), sTok, Eff.zero⟩ :=
  ⟨(get_token_cache_hit envOK sEmpty).1 rfl,
   (get_token_cache_hit envOK sTok).2 tokA rfl (by decide)⟩

/-! ## C3 — refresh failure raises and leaves the token untouched -/

/-- C3: for a session with an expired token, a non-200 refresh status or an
`error` field in the response body makes `get_token` raise an `HTTPException`
carrying the response status and a message, with the session (and its stored
`token` field) left unchanged. -/
theorem get_token_refresh_failure (env : Env) (s : Session) (data : TokenData)
    (htok : s.token = some data) (hexp : data.is_expired env.now = true)
    (hfail : env.refresh.status ≠ 200 ∨ env.refresh.body.error ≠ none) :
    (∃ e : HTTPException, (get_token env s).result = .error e ∧
      e.status = env.refresh.status) ∧
    (get_token env s).session = s := by
  by_cases h200 : env.refresh.status = 200
  · cases herr : env.refresh.body.error with
    | none =>
      rcases hfail with h | h
      · exact absurd h200 h
      · exact absurd herr h
    | some e => simp [get_token, htok, hexp, h200, herr]
  · simp [get_token, htok, hexp, h200]

/-- Witness for C3: at time 4000 the stored `tokA` is expired and the refresh
endpoint answers 400; `get_token` raises and the session keeps `tokA`. -/
theorem get_token_refresh_failure_witness :
    ((∃ e : HTTPException, (get_token envFail sTok).result = .error e ∧
       e.status = envFail.refresh.status) ∧
     (get_token envFail sTok).session = sTok) ∧ sTok.token = some tokA :=
  ⟨get_token_refresh_failure envFail sTok tokA rfl (by decide) (by decide),
   rfl⟩

/-! ## C2 — no token: profile and guild caches -/

/-- Counterexample to C2: `sCached` has no `token` field but holds a fresh
cached `user` and a fresh cached `guilds` list; at time 100 both `get_user`
and `get_user_guilds` return the cached values instead of absent, because the
cache-hit paths never consult the token. -/
theorem get_user_cached_despite_no_token :
    sCached.token = none ∧
    (get_user envOK sCached).result = .ok (some userA) ∧
    (get_user_guilds envOK sCached).result = .ok (some [(5, guildA), (7, guildB)]) :=
  ⟨rfl, rfl, rfl⟩

/-- C2 (amended): for a session with no `token` field, `get_user` returns
absent provided no unexpired cached `user` short-circuits the token check, and
`get_user_guilds` returns absent provided no unexpired non-empty cached
`guilds` list short-circuits it. -/
theorem get_user_and_guilds_no_token_absent (env : Env) (s : Session)
    (htok : s.token = none)
    (huser : s.user = none ∨
      ∃ u, s.user = some u ∧ u.is_expired env.now env.userTTL = true)
    (hguilds : s.guilds = none ∨ s.guilds = some [] ∨
      ∃ gd, s.guilds = some gd ∧
        ((guildsDict gd).map Prod.snd).any
          (fun g => g.is_expired env.now env.guildTTL) = true) :
    (get_user env s).result = .ok none ∧
    (get_user_guilds env s).result = .ok none := by
  constructor
  · rcases huser with h | ⟨u, h, hexp⟩
    · simp [get_user, fetch_user, get_token, htok, h]
    · simp [get_user, fetch_user, get_token, htok, h, hexp]
  · rcases hguilds with h | h | ⟨gd, h, hexp⟩
    · simp [get_user_guilds, fetch_user_guilds, get_token, htok, h]
    · simp [get_user_guilds, fetch_user_guilds, get_token, htok, h]
    · by_cases hne : gd = []
      · simp [get_user_guilds, fetch_user_guilds, get_token, htok, h, hne]
      · simp [get_user_guilds, fetch_user_guilds, get_token, htok, h, hne, hexp]

/-- Witness for C2 (amended): the empty session has no token and no cached
data; both accessors return absent. -/
theorem get_user_and_guilds_no_token_absent_witness :
    (get_user envOK sEmpty).result = .ok none ∧
    (get_user_guilds envOK sEmpty).result = .ok none :=
  get_user_and_guilds_no_token_absent envOK sEmpty rfl (Or.inl rfl) (Or.inl rfl)

/-! ## C5 — no-token short-circuit of the resolver -/

/-- Counterexample to C5: `sCached` has no token, yet `get_related_guilds`
performs one IPC call and returns a populated partition, because the fresh
cached guild list satisfies the Guild List Cache without any token check. -/
theorem get_related_guilds_cached_despite_no_token :
    sCached.token = none ∧
    (get_related_guilds envOK sCached 1 none).eff.ipcCalls = 1 ∧
    (get_related_guilds envOK sCached 1 none).result =
      .ok ⟨some [guildA], some [guildB], none⟩ :=
  ⟨rfl, rfl, rfl⟩

/-- C5 (amended): for a session with no token and no unexpired non-empty
cached guild list, `get_related_guilds` returns the all-absent triple, leaves
the session unchanged, and performs zero IPC calls (and zero calls of any
kind). -/
theorem get_related_guilds_no_token_short_circuit (env : Env) (s : Session)
    (uid : Nat) (gid : Option Nat) (htok : s.token = none)
    (hguilds : s.guilds = none ∨ s.guilds = some [] ∨
      ∃ gd, s.guilds = some gd ∧
        ((guildsDict gd).map Prod.snd).any
          (fun g => g.is_expired env.now env.guildTTL) = true) :
    get_related_guilds env s uid gid = ⟨.ok ⟨none, none, none⟩, s, Eff.zero⟩ := by
  have h : get_user_guilds env s = ⟨.ok none, s, Eff.zero⟩ := by
    rcases hguilds with h | h | ⟨gd, h, hexp⟩
    · simp [get_user_guilds, fetch_user_guilds, get_token, htok, h]
    · simp [get_user_guilds, fetch_user_guilds, get_token, htok, h]
    · by_cases hne : gd = []
      · simp [get_user_guilds, fetch_user_guilds, get_token, htok, h, hne]
      · simp [get_user_guilds, fetch_user_guilds, get_token, htok, h, hne, hexp]
  simp [get_related_guilds, h]

/-- Witness for C5 (amended): the empty session short-circuits to the
all-absent triple with zero outbound calls. -/
theorem get_related_guilds_no_token_short_circuit_witness :
    get_related_guilds envOK sEmpty 1 none =
      ⟨.ok ⟨none, none, none⟩, sEmpty, Eff.zero⟩ :=
  get_related_guilds_no_token_short_circuit envOK sEmpty 1 none rfl (Or.inl rfl)

/-! ## C9 — guild list cache-hit and bulk-refetch behaviour -/

def sFull : Session := ⟨some tokA, some userA, some [guildA, guildB]⟩

def sStaleGuilds : Session := ⟨some tokB, none, some [guildA, guildB]⟩

/-- Counterexample to C9: `sCached` holds a cached non-empty guild list whose
entries are expired at time 4000, but has no token; `get_user_guilds` performs
no bulk fetch at all (zero identity-endpoint calls) and returns absent instead
of a refreshed mapping. -/
theorem get_user_guilds_stale_without_token_no_fetch :
    guildA.is_expired envLate.now envLate.guildTTL = true ∧
    sCached.guilds = some [guildA, guildB] ∧
    (get_user_guilds envLate sCached).result = .ok none ∧
    (get_user_guilds envLate sCached).eff.httpCalls = 0 :=
  ⟨by decide, rfl, rfl, rfl⟩

/-- C9 (amended): for a session with a cached non-empty guild list, if no
cached entry is expired `get_user_guilds` returns the stored mapping keyed by
integer guild id with no outbound call and an unchanged session; if any single
entry is expired and the session holds a usable (unexpired) token, it performs
one bulk fetch of the full guild list, stamps every fetched entry with the
current time, overwrites the whole `guilds` field, and returns the refreshed
mapping (no per-entry partial refresh). -/
theorem get_user_guilds_cache_behaviour (env : Env) (s : Session)
    (gd : List GuildData) (hgd : s.guilds = some gd) (hne : gd ≠ []) :
    (((guildsDict gd).map Prod.snd).any
        (fun g => g.is_expired env.now env.guildTTL) = false →
      get_user_guilds env s = ⟨.ok (some (guildsDict gd)), s, Eff.zero⟩) ∧
    (∀ tok, s.token = some tok → tok.is_expired env.now = false →
      ((guildsDict gd).map Prod.snd).any
        (fun g => g.is_expired env.now env.guildTTL) = true →
      get_user_guilds env s =
        ⟨.ok (some (guildsDict (env.guildsResp.map
            (fun g => { g with fetched_at := env.now })))),
         { s with guilds := some (env.guildsResp.map
            (fun g => { g with fetched_at := env.now })) },
         ⟨0, 1, 0⟩⟩) := by
  constructor
  · intro hall
    simp [get_user_guilds, hgd, hne, hall]
  · intro tok htok hfresh hexp
    simp [get_user_guilds, fetch_user_guilds, get_token, hgd, hne, hexp, htok,
      hfresh, Eff.zero]

/-- Witness for C9 (amended): at time 100 the cached list in `sFull` is fresh
and returned without any call; at time 4000 the same list in `sStaleGuilds`
(whose token `tokB` is still valid) is expired and replaced by one bulk fetch
stamped at 4000. -/
theorem get_user_guilds_cache_behaviour_witness :
    get_user_guilds envOK sFull =
      ⟨.ok (some (guildsDict [guildA, guildB])), sFull, Eff.zero⟩ ∧
    get_user_guilds envLate sStaleGuilds =
      ⟨.ok (some (guildsDict (envLate.guildsResp.map
          (fun g => { g with fetched_at := envLate.now })))),
       { sStaleGuilds with guilds := some (envLate.guildsResp.map
          (fun g => { g with fetched_at := envLate.now })) },
       ⟨0, 1, 0⟩⟩ :=
  ⟨(get_user_guilds_cache_behaviour envOK sFull [guildA, guildB] rfl
      (by decide)).1 (by decide),
   (get_user_guilds_cache_behaviour envLate sStaleGuilds [guildA, guildB] rfl
      (by decide)).2 tokB rfl (by decide) (by decide)⟩

/-! ## C10 — empty guild list behaves like an unauthenticated session -/

/-- An environment at time 100 whose identity endpoint reports an empty guild
list. -/
def envNoGuilds : Env := ⟨⟨200, ⟨none, tokB⟩⟩, userA, [], some [5], 100, 300, 300⟩

/-- C10: for a logged-in session (valid token) whose guild list fetch returns
the empty list, `get_related_guilds` returns the all-absent triple and performs
zero IPC calls (and exactly the one bulk fetch), leaving `guilds = []` in the
session so the empty cached list is a Python-falsy cache miss on every later
call; the returned triple is the same as for a fully unauthenticated session. -/
theorem get_related_guilds_empty_guild_list (env : Env) (s : Session)
    (tok : TokenData) (uid : Nat) (gid : Option Nat)
    (htok : s.token = some tok) (hfresh : tok.is_expired env.now = false)
    (hresp : env.guildsResp = [])
    (hguilds : s.guilds = none ∨ s.guilds = some []) :
    get_related_guilds env s uid gid =
      ⟨.ok ⟨none, none, none⟩, { s with guilds := some [] }, ⟨0, 1, 0⟩⟩ ∧
    (get_related_guilds env ⟨none, none, none⟩ uid gid).result =
      .ok ⟨none, none, none⟩ := by
  constructor
  · have h : get_user_guilds env s =
        ⟨.ok (some []), { s with guilds := some [] }, ⟨0, 1, 0⟩⟩ := by
      rcases hguilds with h | h
      · simp [get_user_guilds, fetch_user_guilds, get_token, htok, hfresh, h,
          hresp, guildsDict, Eff.zero]
      · simp [get_user_guilds, fetch_user_guilds, get_token, htok, hfresh, h,
          hresp, guildsDict, Eff.zero]
    simp [get_related_guilds, h]
  · simp [get_related_guilds, get_user_guilds, fetch_user_guilds, get_token]

/-- Witness for C10: `sTok` holds the valid `tokA` at time 100 and no cached
guilds; the fetch returns the empty list. -/
theorem get_related_guilds_empty_guild_list_witness :
    (get_related_guilds envNoGuilds sTok 1 none =
      ⟨.ok ⟨none, none, none⟩, { sTok with guilds := some [] }, ⟨0, 1, 0⟩⟩ ∧
    (get_related_guilds envNoGuilds ⟨none, none, none⟩ 1 none).result =
      .ok ⟨none, none, none⟩) :=
  get_related_guilds_empty_guild_list envNoGuilds sTok tokA 1 none rfl
    (by decide) rfl (Or.inl rfl)

/-! ## C6 — the resolver partitions the guild mapping -/

/-- Serialisation is the identity on lists of guild views. -/
theorem map_to_dict (l : List GuildData) : l.map GuildData.to_dict = l := by
  induction l with
  | nil => rfl
  | cons a t ih => simp [GuildData.to_dict, ih]

/-- The reduced form of `get_related_guilds` on a non-empty guild mapping:
both partition lists and the optional lookup, written out explicitly. -/
theorem get_related_guilds_result_eq (env : Env) (s : Session) (uid : Nat)
    (gid : Option Nat) (G : List (Nat × GuildData))
    (hG : (get_user_guilds env s).result = .ok (some G)) (hne : G ≠ []) :
    (get_related_guilds env s uid gid).result =
      .ok ⟨some ((G.map Prod.snd).filter
              (fun gl => gl.id ∈ env.mutualIds.getD [])),
           some ((G.map Prod.snd).filter
              (fun gl => gl.id ∉ env.mutualIds.getD [])),
           lookupMutual ((G.map Prod.snd).filter
              (fun gl => gl.id ∈ env.mutualIds.getD [])) gid⟩ := by
  simp [get_related_guilds, hG, hne, map_to_dict]

/-- C6: for every guild mapping G produced by the Guild List Cache and every
mutual-id set M obtained from the IPC call, the resolver partitions the values
of G: every value lands in `mutual_guilds` or `non_mutual_guilds`, no value
lands in both, and each output list is a sublist of the mapping's values —
i.e. it preserves the mapping's iteration order. -/
theorem get_related_guilds_partition (env : Env) (s : Session) (uid : Nat)
    (gid : Option Nat) (G : List (Nat × GuildData))
    (hG : (get_user_guilds env s).result = .ok (some G)) (hne : G ≠ []) :
    ∃ rg : RelatedGuilds, ∃ mg ng : List GuildData,
      (get_related_guilds env s uid gid).result = .ok rg ∧
      rg.mutual_guilds = some mg ∧ rg.non_mutual_guilds = some ng ∧
      (∀ x, x ∈ G.map Prod.snd ↔ (x ∈ mg ∨ x ∈ ng)) ∧
      (∀ x, x ∈ mg → x ∉ ng) ∧
      mg.Sublist (G.map Prod.snd) ∧ ng.Sublist (G.map Prod.snd) := by
  refine ⟨_, _, _, get_related_guilds_result_eq env s uid gid G hG hne,
    rfl, rfl, ?_, ?_, ?_, ?_⟩
  · intro x
    constructor
    · intro hx
      by_cases h : x.id ∈ env.mutualIds.getD []
      · exact Or.inl (List.mem_filter.mpr ⟨hx, by simpa using h⟩)
      · exact Or.inr (List.mem_filter.mpr ⟨hx, by simpa using h⟩)
    · rintro (hx | hx) <;> exact (List.mem_filter.mp hx).1
  · intro x hx hx'
    have h1 := (List.mem_filter.mp hx).2
    have h2 := (List.mem_filter.mp hx').2
    simp at h1 h2
    exact h2 h1
  · exact List.filter_sublist _
  · exact List.filter_sublist _

/-- Witness for C6: the mapping built from `sFull`'s cached guilds at time 100
is partitioned by the mutual-id set `[5]`. -/
theorem get_related_guilds_partition_witness :
    ∃ rg : RelatedGuilds, ∃ mg ng : List GuildData,
      (get_related_guilds envOK sFull 1 none).result = .ok rg ∧
      rg.mutual_guilds = some mg ∧ rg.non_mutual_guilds = some ng ∧
      (∀ x, x ∈ [(5, guildA), (7, guildB)].map Prod.snd ↔ (x ∈ mg ∨ x ∈ ng)) ∧
      (∀ x, x ∈ mg → x ∉ ng) ∧
      mg.Sublist ([(5, guildA), (7, guildB)].map Prod.snd) ∧
      ng.Sublist ([(5, guildA), (7, guildB)].map Prod.snd) :=
  get_related_guilds_partition envOK sFull 1 none [(5, guildA), (7, guildB)]
    rfl (by decide)

/-! ## C7 — the specific-guild lookup is restricted to the mutual set -/

/-- C7: when a specific guild id is requested, the lookup happens only inside
the mutual partition: an id outside the mutual-id set (even one present in the
mapping) leaves the `guild` field absent, and whenever `guild` is set, its
value has the requested id, belongs to the mutual-id set, and is a value of
the mapping. -/
theorem get_related_guilds_lookup_mutual_only (env : Env) (s : Session)
    (uid gidv : Nat) (G : List (Nat × GuildData))
    (hG : (get_user_guilds env s).result = .ok (some G)) (hne : G ≠ []) :
    ∃ rg : RelatedGuilds,
      (get_related_guilds env s uid (some gidv)).result = .ok rg ∧
      (gidv ∉ env.mutualIds.getD [] → rg.guild = none) ∧
      (∀ g, rg.guild = some g →
        g.id = gidv ∧ g.id ∈ env.mutualIds.getD [] ∧ g ∈ G.map Prod.snd) := by
  refine ⟨_, get_related_guilds_result_eq env s uid (some gidv) G hG hne,
    ?_, ?_⟩
  · intro hnot
    simp only [lookupMutual]
    by_cases h0 : gidv = 0
    · simp [h0]
    · simp only [h0, ne_eq, not_false_eq_true, if_true]
      cases hfind : ((G.map Prod.snd).filter
          (fun gl => gl.id ∈ env.mutualIds.getD [])).find?
          (fun gl => gl.id = gidv) with
      | none => simp
      | some gl =>
        have hmem := List.mem_of_find?_eq_some hfind
        have hp := List.find?_some hfind
        have hin : gl.id ∈ env.mutualIds.getD [] := by
          simpa using (List.mem_filter.mp hmem).2
        have heq : gl.id = gidv := by simpa using hp
        exact absurd (heq ▸ hin) hnot
  · intro g hg
    simp only [lookupMutual] at hg
    by_cases h0 : gidv = 0
    · simp [h0] at hg
    · simp only [h0, ne_eq, not_false_eq_true, if_true] at hg
      cases hfind : ((G.map Prod.snd).filter
          (fun gl => gl.id ∈ env.mutualIds.getD [])).find?
          (fun gl => gl.id = gidv) with
      | none => rw [hfind] at hg; simp at hg
      | some gl =>
        rw [hfind] at hg
        have hmem := List.mem_of_find?_eq_some hfind
        have hp := List.find?_some hfind
        have hgl : g = gl := by
          simp [GuildData.to_dict] at hg
          exact hg.symm
        subst hgl
        refine ⟨by simpa using hp, by simpa using (List.mem_filter.mp hmem).2,
          (List.mem_filter.mp hmem).1⟩

/-- Witness for C7: guild id 7 is in the mapping but not in the mutual set
`[5]`, so the `guild` field stays absent. -/
theorem get_related_guilds_lookup_mutual_only_witness :
    ∃ rg : RelatedGuilds,
      (get_related_guilds envOK sFull 1 (some 7)).result = .ok rg ∧
      (7 ∉ envOK.mutualIds.getD [] → rg.guild = none) ∧
      (∀ g, rg.guild = some g →
        g.id = 7 ∧ g.id ∈ envOK.mutualIds.getD [] ∧
        g ∈ [(5, guildA), (7, guildB)].map Prod.snd) :=
  get_related_guilds_lookup_mutual_only envOK sFull 1 7
    [(5, guildA), (7, guildB)] rfl (by decide)

/-! ## C8 — an absent IPC answer degrades to "no mutual guilds" -/

/-- An environment at time 100 whose IPC channel gives no answer. -/
def envNoIPC : Env := ⟨⟨200, ⟨none, tokB⟩⟩, userA, [guildA, guildB], none, 100, 300, 300⟩

/-- C8: for a session whose Guild List Cache yields a non-empty mapping, an
absent IPC answer (`mutual_guild_ids` returns `None`) does not raise: the
mutual-id set is treated as empty, so `mutual_guilds` is the empty list and
`non_mutual_guilds` holds every value of the mapping, in order. -/
theorem get_related_guilds_ipc_none_degrades (env : Env) (s : Session)
    (uid : Nat) (gid : Option Nat) (G : List (Nat × GuildData))
    (hipc : env.mutualIds = none)
    (hG : (get_user_guilds env s).result = .ok (some G)) (hne : G ≠ []) :
    ∃ rg : RelatedGuilds,
      (get_related_guilds env s uid gid).result = .ok rg ∧
      rg.mutual_guilds = some [] ∧
      rg.non_mutual_guilds = some (G.map Prod.snd) := by
  refine ⟨_, get_related_guilds_result_eq env s uid gid G hG hne, ?_, ?_⟩
  · simp [hipc]
  · simp [hipc]

/-- Witness for C8: with the bot unreachable (`envNoIPC`), the cached mapping
of `sFull` ends up entirely in `non_mutual_guilds`. -/
theorem get_related_guilds_ipc_none_degrades_witness :
    ∃ rg : RelatedGuilds,
      (get_related_guilds envNoIPC sFull 1 none).result = .ok rg ∧
      rg.mutual_guilds = some [] ∧
      rg.non_mutual_guilds = some ([(5, guildA), (7, guildB)].map Prod.snd) :=
  get_related_guilds_ipc_none_degrades envNoIPC sFull 1 none
    [(5, guildA), (7, guildB)] rfl rfl (by decide)
